import Mathlib

/-!
# blog-react-back: the post and user controllers

A shallow embedding of `src/controllers/postControllers.js` and
`src/controllers/userControllers.js`.

Every controller is an Express handler `(req, res, next)`.  Here a handler is a
function from the persisted state (the `users` collection, the `posts`
collection and the `uploads` directory) and the request to the list of replies
the handler issues (`res.status(..).json(..)`, `next(..)`) together with the
state it leaves behind.  What the libraries decide (the value of `uuid()`, the
`_id` of an inserted document, an I/O failure of `fs.unlink` or of `mv`, bcrypt,
the token signature, `toLowerCase`) is read from an `Env` record.
-/

namespace BlogBack

/-! ## Values -/

/-- Modelled from the spec: the error class of `models/errorModel.js`, which is
not among the sources.  `new HttpError(message, code)` carries a message and a
status code; `new HttpError(error)` is built without a code. -/
structure HttpError where
  message : String
  code : Option Nat
deriving DecidableEq, Repr

/-- Modelled from the spec: a document of `models/postModel.js` (not among the
sources), with the fields the controllers write: `_id`, `title`, `category`,
`description`, `thumbnail` (a file name under `uploads`) and `creator`. -/
structure Post where
  id : String
  title : String
  category : String
  description : String
  thumbnail : String
  creator : String
deriving DecidableEq, Repr

/-- Modelled from the spec: a document of `models/userModel.js` (not among the
sources): `_id`, `name`, `email`, `password` (the stored hash), `avatar` and the
counter `posts`. -/
structure User where
  id : String
  name : String
  email : String
  password : String
  avatar : Option String
  posts : Int
deriving DecidableEq, Repr

/-- A user document as it is serialised in a reply: the `password` field is
there unless the query dropped it with `.select('-password')`. -/
structure UserDoc where
  id : String
  name : String
  email : String
  password : Option String
  avatar : Option String
  posts : Int
deriving DecidableEq, Repr

/-- An uploaded file of `req.files`: its `name` and its `size` in bytes. -/
structure UploadedFile where
  name : String
  size : Nat
deriving DecidableEq, Repr

/-- The `req.files` object: the fields the controllers destructure. -/
structure Files where
  thumbnail : Option UploadedFile
  avatar : Option UploadedFile
deriving DecidableEq, Repr

/-- The JSON bodies the controllers send. -/
inductive Body where
  | post (p : Post)
  | user (u : UserDoc)
  | users (us : List UserDoc)
  | text (s : String)
  | message (m : String)
  | session (token id name : String)
  | null
deriving DecidableEq, Repr

/-- One reply of a handler: `res.status(status).json(body)`, `next(httpError)`,
or `next(err)` with the raw error of a file operation. -/
inductive Reply where
  | json (status : Nat) (body : Body)
  | next (err : HttpError)
  | nextRaw (err : String)
deriving DecidableEq, Repr

/-- The persisted state: both collections and the names in `uploads`. -/
structure State where
  users : List User
  posts : List Post
  uploads : List String
deriving DecidableEq, Repr

/-- What the libraries and the environment decide during one request. -/
structure Env where
  /-- the value `uuid()` returns -/
  uuid : String
  /-- the `_id` the database gives the next inserted document -/
  newId : String
  /-- whether `fs.unlink` fails with an I/O error -/
  unlinkFault : Bool
  /-- whether `mv` fails with an I/O error -/
  mvFault : Bool
  /-- whether `Model.create` yields no document -/
  insertFault : Bool
  /-- the method `String.prototype.toLowerCase` -/
  toLowerCase : String → String
  /-- the call `bcrypt.hash(password, salt)` with the salt of `bcrypt.genSalt(10)` -/
  hash : String → String
  /-- the call `bcrypt.compare(password, hash)` -/
  compare : String → String → Bool
  /-- the call `jwt.sign` on `id` and `name`, valid for one hour -/
  sign : String → String → String

/-! ## JavaScript primitives -/

/-- Truthiness of a value that is `undefined` or a string: `!v` holds for
`undefined` and for the empty string. -/
def truthy : Option String → Bool
  | none => false
  | some v => v != ""

/-- The `length` of a string: the number of UTF-16 code units. -/
def jsLength (v : String) : Nat :=
  (v.data.map (fun c => if c.toNat < 65536 then 1 else 2)).sum

/-- Helper of `split`: `cur` is the piece being read, in reverse. -/
def splitAux : List Char → List Char → List String
  | [], cur => [String.mk cur.reverse]
  | c :: cs, cur =>
    if c = '.' then String.mk cur.reverse :: splitAux cs [] else splitAux cs (c :: cur)

/-- The pieces of `fileName.split('.')`. -/
def split (fileName : String) : List String := splitAux fileName.data []

/-- The stored name of an upload:
`splittedFilename[0] + uuid() + '.' + splittedFilename[splittedFilename.length - 1]`. -/
def newFilename (env : Env) (fileName : String) : String :=
  let splittedFilename := split fileName
  splittedFilename.headD "" ++ env.uuid ++ "." ++ splittedFilename.getLastD ""

/-- The message of the `TypeError` raised by reading a property of `null` or
`undefined`. -/
def typeError : String := "TypeError: Cannot read properties of null or undefined"

/-- The error `fs.unlink` reports for a missing file. -/
def enoent : String := "ENOENT: no such file or directory"

/-- The error of a failed file operation. -/
def eio : String := "EIO: i/o error"

/-- The call `fs.unlink(path.join(__dirname, '..', 'uploads', name), cb)`: the
error handed to `cb`, or the directory without the file. -/
def unlink (env : Env) (uploads : List String) (name : String) : Except String (List String) :=
  if env.unlinkFault then .error eio
  else if name ∈ uploads then .ok (uploads.filter (fun f => f != name))
  else .error enoent

/-- The call `file.mv(path.join(__dirname, '..', 'uploads', name), cb)`: the
error handed to `cb`, or the directory with the file written (a file of that
name is overwritten). -/
def mv (env : Env) (uploads : List String) (name : String) : Except String (List String) :=
  if env.mvFault then .error eio
  else .ok (uploads.filter (fun f => f != name) ++ [name])

/-! ## The collections

`_id` is the primary key of a collection, so a query by id touches the one
document that carries it. -/

/-- The query `Post.findById(id)`. -/
def Post.findById (posts : List Post) (id : String) : Option Post :=
  posts.find? (fun p => p.id == id)

/-- The query `Post.create(doc)`: the inserted document and the collection. -/
def Post.create (env : Env) (posts : List Post) (title category description thumbnail creator : String) :
    Option Post × List Post :=
  if env.insertFault then (none, posts)
  else
    let doc : Post := ⟨env.newId, title, category, description, thumbnail, creator⟩
    (some doc, posts ++ [doc])

/-- The query `Post.findByIdAndUpdate(id, update, { new: true })`: the updated
document (`null` when none has the id) and the collection. -/
def Post.findByIdAndUpdate (posts : List Post) (id : String) (update : Post → Post) :
    Option Post × List Post :=
  ((Post.findById posts id).map update,
    posts.map (fun p => if p.id == id then update p else p))

/-- The query `Post.findByIdAndDelete(id)`. -/
def Post.findByIdAndDelete (posts : List Post) (id : String) : List Post :=
  posts.filter (fun p => p.id != id)

/-- The query `User.findById(id)`. -/
def User.findById (users : List User) (id : String) : Option User :=
  users.find? (fun u => u.id == id)

/-- The query `User.findOne({ email })`: an exact match on the stored email. -/
def User.findOne (users : List User) (email : String) : Option User :=
  users.find? (fun u => u.email == email)

/-- The query `User.findByIdAndUpdate(id, update, { new: true })`. -/
def User.findByIdAndUpdate (users : List User) (id : String) (update : User → User) :
    Option User × List User :=
  ((User.findById users id).map update,
    users.map (fun u => if u.id == id then update u else u))

/-- The query `User.create({ name, email, password })`; `avatar` is unset and
the counter `posts` starts at its default 0. -/
def User.create (env : Env) (users : List User) (name email password : String) :
    Option User × List User :=
  if env.insertFault then (none, users)
  else
    let doc : User := ⟨env.newId, name, email, password, none, 0⟩
    (some doc, users ++ [doc])

/-- A user document serialised whole, the `password` field included. -/
def User.toDoc (u : User) : UserDoc := ⟨u.id, u.name, u.email, some u.password, u.avatar, u.posts⟩

/-- The projection `.select('-password')`. -/
def User.selectNoPassword (u : User) : UserDoc := ⟨u.id, u.name, u.email, none, u.avatar, u.posts⟩

/-- The counter `posts` of the user with the given id, when there is one. -/
def postCount (s : State) (id : String) : Option Int := (User.findById s.users id).map (fun u => u.posts)

/-! ## postControllers.js -/

/-- The request body of the post routes: each field is `undefined` or a string. -/
structure PostBody where
  title : Option String
  category : Option String
  description : Option String
deriving DecidableEq, Repr

/-- The 422 reply of the size check on a thumbnail. -/
def thumbnailTooBig : HttpError := ⟨"Thumbnail too big. Should be less than 2MB", some 422⟩

/-- The handler `createPost` (lines 14-48); `userId` is `req.user.id`. -/
def createPost (env : Env) (s : State) (userId : String) (body : PostBody) (files : Option Files) :
    List Reply × State :=
  if !truthy body.title || !truthy body.category || !truthy body.description || files.isNone then
    ([.next ⟨"Fill in all fields and choose thumbnail", some 422⟩], s)
  else
    match files.bind (fun f => f.thumbnail) with
    | none =>
      -- `thumbnail.size` on `undefined` throws; the `catch` wraps the error
      ([.next ⟨typeError, none⟩], s)
    | some thumbnail =>
      if thumbnail.size > 2000000 then ([.next thumbnailTooBig], s)
      else
        let name := newFilename env thumbnail.name
        match mv env s.uploads name with
        | .error err => ([.nextRaw err], s)
        | .ok uploads =>
          match Post.create env s.posts (body.title.getD "") (body.category.getD "")
              (body.description.getD "") name userId with
          | (none, posts) =>
            ([.next ⟨"Post could not be created", some 422⟩], { s with uploads := uploads, posts := posts })
          | (some newPost, posts) =>
            match User.findById s.users userId with
            | none =>
              -- `currentUser.posts` on `null` throws inside the callback of `mv`,
              -- outside the `try`: no reply is sent
              ([], { s with uploads := uploads, posts := posts })
            | some currentUser =>
              let userPostCount := currentUser.posts + 1
              ([.json 200 (.post newPost)],
                { users := (User.findByIdAndUpdate s.users userId
                    (fun u => { u with posts := userPostCount })).2,
                  posts := posts, uploads := uploads })

/-- The handler `getPost` (lines 70-81); `postId` is `req.params.id`. -/
def getPost (s : State) (postId : String) : List Reply × State :=
  match Post.findById s.posts postId with
  | none => ([.next ⟨"Post not found", some 404⟩], s)
  | some post => ([.json 200 (.post post)], s)

/-- The guard of `editPost`, line 127:
`!title || !category || description.length < 12`, which throws when it reaches
`description.length` on `undefined`. -/
def editGuard (body : PostBody) : Except String Bool :=
  if !truthy body.title then .ok true
  else if !truthy body.category then .ok true
  else
    match body.description with
    | none => .error typeError
    | some description => .ok (decide (jsLength description < 12))

/-- The handler `editPost` (lines 118-169).  The callbacks of `fs.unlink` and
`mv` reply on their own; the replies are listed in the order the calls are
written in the handler. -/
def editPost (env : Env) (s : State) (userId postId : String) (body : PostBody)
    (files : Option Files) : List Reply × State :=
  match editGuard body with
  | .error err => ([.next ⟨err, none⟩], s)
  | .ok true => ([.next ⟨"Fill in all fields", some 422⟩], s)
  | .ok false =>
    let title := body.title.getD ""
    let category := body.category.getD ""
    let description := body.description.getD ""
    match Post.findById s.posts postId with
    | none =>
      -- `oldPost.creator` on `null` throws; the `catch` wraps the error
      ([.next ⟨typeError, none⟩], s)
    | some oldPost =>
      if userId == oldPost.creator then
        match files with
        | none =>
          match Post.findByIdAndUpdate s.posts postId
              (fun p => { p with title := title, category := category, description := description }) with
          | (none, posts) =>
            ([.next ⟨"Post could not be edited", some 422⟩], { s with posts := posts })
          | (some updatedPost, posts) =>
            ([.json 200 (.post updatedPost)], { s with posts := posts })
        | some fs =>
          -- delete old thumbnail from upload: an error is reported, the handler goes on
          let (unlinkReplies, uploads1) :=
            match unlink env s.uploads oldPost.thumbnail with
            | .error err => ([Reply.next ⟨err, none⟩], s.uploads)
            | .ok uploads => ([], uploads)
          match fs.thumbnail with
          | none => (unlinkReplies ++ [.next ⟨typeError, none⟩], { s with uploads := uploads1 })
          | some thumbnail =>
            if thumbnail.size > 2000000 then
              (unlinkReplies ++ [.next thumbnailTooBig], { s with uploads := uploads1 })
            else
              let name := newFilename env thumbnail.name
              let (mvReplies, uploads2) :=
                match mv env uploads1 name with
                | .error err => ([Reply.next ⟨err, none⟩], uploads1)
                | .ok uploads => ([], uploads)
              match Post.findByIdAndUpdate s.posts postId
                  (fun p => { p with title := title, category := category,
                                     description := description, thumbnail := name }) with
              | (none, posts) =>
                (unlinkReplies ++ mvReplies ++ [.next ⟨"Post could not be edited", some 422⟩],
                  { s with posts := posts, uploads := uploads2 })
              | (some updatedPost, posts) =>
                (unlinkReplies ++ mvReplies ++ [.json 200 (.post updatedPost)],
                  { s with posts := posts, uploads := uploads2 })
      else
        -- `updatedPost` stays `undefined`
        ([.next ⟨"Post could not be edited", some 422⟩], s)

/-- The handler `deletePost` (lines 176-207). -/
def deletePost (env : Env) (s : State) (userId postId : String) : List Reply × State :=
  if postId == "" then ([.next ⟨"Post unavailable", some 404⟩], s)
  else
    match Post.findById s.posts postId with
    | none =>
      -- `post?.thumbnail` is `undefined`, then `post.creator` on `null` throws
      ([.next ⟨typeError, none⟩], s)
    | some post =>
      let fileName := post.thumbnail
      if userId == post.creator then
        match unlink env s.uploads fileName with
        | .error err => ([.next ⟨err, none⟩], s)
        | .ok uploads =>
          let posts := Post.findByIdAndDelete s.posts postId
          -- `currentUser?.posts - 1`; without a user document nothing is updated
          let userPostCount : Int :=
            match User.findById s.users userId with
            | some currentUser => currentUser.posts - 1
            | none => 0
          ([.json 200 (.message "Post deleted successfully")],
            { users := (User.findByIdAndUpdate s.users userId
                (fun u => { u with posts := userPostCount })).2,
              posts := posts, uploads := uploads })
      else ([.next ⟨"Post could not be deleted", some 403⟩], s)

/-! ## userControllers.js -/

/-- The request body of `registerUser`. -/
structure RegisterBody where
  name : Option String
  email : Option String
  password : Option String
  password2 : Option String
deriving DecidableEq, Repr

/-- The request body of `loginUser`. -/
structure LoginBody where
  email : Option String
  password : Option String
deriving DecidableEq, Repr

/-- The request body of `editUser`. -/
structure EditUserBody where
  name : Option String
  email : Option String
  currentPassword : Option String
  newPassword : Option String
  newConfirmPassword : Option String
deriving DecidableEq, Repr

/-- The handler `registerUser` (lines 16-46). -/
def registerUser (env : Env) (s : State) (body : RegisterBody) : List Reply × State :=
  if !truthy body.name || !truthy body.email || !truthy body.password || !truthy body.password2 then
    ([.next ⟨"Fill in all fields", some 422⟩], s)
  else
    let name := body.name.getD ""
    let email := body.email.getD ""
    let password := body.password.getD ""
    let password2 := body.password2.getD ""
    let newEmail := env.toLowerCase email
    match User.findOne s.users newEmail with
    | some _ => ([.next ⟨"Email already exits", some 422⟩], s)
    | none =>
      if jsLength password < 6 then
        ([.next ⟨"Password should be at least 6 characters", some 422⟩], s)
      else if password != password2 then
        ([.next ⟨"Passwords do not match", some 422⟩], s)
      else
        let hashedPass := env.hash password
        match User.create env s.users name newEmail hashedPass with
        | (none, users) =>
          -- reading `newUser.email` throws; the `catch` replies
          ([.next ⟨"User registration failed", some 422⟩], { s with users := users })
        | (some newUser, users) =>
          ([.json 201 (.text ("New User " ++ newUser.email ++ " registered"))],
            { s with users := users })

/-- The handler `loginUser` (lines 53-78). -/
def loginUser (env : Env) (s : State) (body : LoginBody) : List Reply × State :=
  if !truthy body.email || !truthy body.password then
    ([.next ⟨"Fill in all fields", some 422⟩], s)
  else
    let email := body.email.getD ""
    let password := body.password.getD ""
    let newEmail := env.toLowerCase email
    match User.findOne s.users newEmail with
    | none =>
      -- `user.password` on `null` throws before the check `if (!user)` of line 67
      -- is reached; the `catch` replies
      ([.next ⟨"Login registration failed", some 422⟩], s)
    | some user =>
      let comparePass := env.compare password user.password
      if !comparePass then ([.next ⟨"Invalid credentials", some 422⟩], s)
      else
        let token := env.sign user.id user.name
        ([.json 200 (.session token user.id user.name)], s)

/-- The handler `getUser` (lines 85-96); `id` is `req.params.id`. -/
def getUser (s : State) (id : String) : List Reply × State :=
  match (User.findById s.users id).map User.selectNoPassword with
  | none => ([.next ⟨"User not found", some 404⟩], s)
  | some user => ([.json 200 (.user user)], s)

/-- The handler `changeAvatar` (lines 103-145); `userId` is `req.user.id`.  The
callbacks of `fs.unlink` and `mv` reply on their own; the replies are listed in
the order the calls are written in the handler. -/
def changeAvatar (env : Env) (s : State) (userId : String) (files : Option Files) :
    List Reply × State :=
  match files with
  | none =>
    -- `req.files.avatar` on `null` throws; the `catch` wraps the error
    ([.next ⟨typeError, none⟩], s)
  | some fs =>
    match fs.avatar with
    | none => ([.next ⟨"No avatar selected", some 422⟩], s)
    | some avatar =>
      match User.findById s.users userId with
      | none =>
        -- `user.avatar` on `null` throws; the `catch` wraps the error
        ([.next ⟨typeError, none⟩], s)
      | some user =>
        -- delete old avatar if exists
        let (unlinkReplies, uploads1) :=
          if truthy user.avatar then
            match unlink env s.uploads (user.avatar.getD "") with
            | .error err => ([Reply.next ⟨err, none⟩], s.uploads)
            | .ok uploads => ([], uploads)
          else ([], s.uploads)
        if avatar.size > 500000 then
          (unlinkReplies ++ [.next ⟨"Profile picture too big. Should be less than 500kb", some 422⟩],
            { s with uploads := uploads1 })
        else
          let name := newFilename env avatar.name
          let (mvReplies, uploads2) :=
            match mv env uploads1 name with
            | .error err => ([Reply.next ⟨err, none⟩], uploads1)
            | .ok uploads => ([], uploads)
          match User.findByIdAndUpdate s.users userId (fun u => { u with avatar := some name }) with
          | (none, users) =>
            (unlinkReplies ++ mvReplies ++ [.next ⟨"Avatar could not be changed", some 422⟩],
              { s with users := users, uploads := uploads2 })
          | (some updatedAvatar, users) =>
            (unlinkReplies ++ mvReplies ++ [.json 200 (.user updatedAvatar.toDoc)],
              { s with users := users, uploads := uploads2 })

/-- The handler `editUser` (lines 152-191); `userId` is `req.user.id`. -/
def editUser (env : Env) (s : State) (userId : String) (body : EditUserBody) : List Reply × State :=
  if !truthy body.name || !truthy body.email || !truthy body.currentPassword
      || !truthy body.newPassword || !truthy body.newConfirmPassword then
    ([.next ⟨"Fill in all fields", some 422⟩], s)
  else
    let name := body.name.getD ""
    let email := body.email.getD ""
    let currentPassword := body.currentPassword.getD ""
    let newPassword := body.newPassword.getD ""
    let newConfirmPassword := body.newConfirmPassword.getD ""
    match User.findById s.users userId with
    | none => ([.next ⟨"User not found", some 404⟩], s)
    | some user =>
      -- make sure new email does not already exist
      let emailExists := User.findOne s.users email
      if emailExists.any (fun other => other.id != userId) then
        ([.next ⟨"Email already exits", some 422⟩], s)
      else if !env.compare currentPassword user.password then
        ([.next ⟨"Invalid current password", some 422⟩], s)
      else if newPassword != newConfirmPassword then
        ([.next ⟨"New passwords do not match", some 422⟩], s)
      else
        let hash := env.hash newPassword
        match User.findByIdAndUpdate s.users userId
            (fun u => { u with name := name, email := email, password := hash }) with
        | (none, users) => ([.json 200 .null], { s with users := users })
        | (some newInfo, users) =>
          -- `res.status(200).json(newInfo)`: the whole document
          ([.json 200 (.user newInfo.toDoc)], { s with users := users })

/-- The handler `getAuthors` (lines 198-205). -/
def getAuthors (s : State) : List Reply × State :=
  ([.json 200 (.users (s.users.map User.selectNoPassword))], s)

/-! ## Properties of replies and states -/

/-- Whether a JSON body holds a user document with the `password` field. -/
def Body.exposesPassword : Body → Bool
  | .user u => u.password.isSome
  | .users us => us.any (fun u => u.password.isSome)
  | _ => false

/-- Whether a reply is a JSON reply holding a user document with the `password`
field. -/
def Reply.exposesPassword : Reply → Bool
  | .json _ body => body.exposesPassword
  | _ => false

/-- No two users with different ids have emails that agree once both are put in
lower case by `lower`. -/
def emailsUnique (lower : String → String) (users : List User) : Prop :=
  ∀ u ∈ users, ∀ v ∈ users, u.id ≠ v.id → lower u.email ≠ lower v.email

/-- Every stored email is in lower case: `lower` leaves it as it is. -/
def emailsLowered (lower : String → String) (users : List User) : Prop :=
  ∀ u ∈ users, lower u.email = u.email

instance (lower : String → String) (users : List User) : Decidable (emailsUnique lower users) := by
  unfold emailsUnique
  infer_instance


/-! ## Sample data -/

/-- A library environment without faults; bcrypt and the token signature are
stand-ins that can be evaluated. -/
def sampleEnv : Env where
  uuid := "-3f2a"
  newId := "p2"
  unlinkFault := false
  mvFault := false
  insertFault := false
  toLowerCase := fun v => String.mk (v.data.map Char.toLower)
  hash := fun password => "hash:" ++ password
  compare := fun password hash => hash == "hash:" ++ password
  sign := fun id name => "token:" ++ id ++ ":" ++ name

/-- The environment `sampleEnv` with a failing `fs.unlink`. -/
def unlinkFaultEnv : Env := { sampleEnv with unlinkFault := true }

/-- A user with one post. -/
def alice : User := ⟨"u1", "Alice", "alice@example.com", "hash:secret1", none, 1⟩

/-- A user without posts. -/
def bob : User := ⟨"u2", "Bob", "bob@example.com", "hash:secret2", some "bob-77.png", 0⟩

/-- The post of `alice`. -/
def alicePost : Post := ⟨"p1", "First", "tech", "<p>hello world</p>", "photo-01.png", "u1"⟩

/-- A state with two users, one post and the stored files. -/
def sampleState : State := ⟨[alice, bob], [alicePost], ["photo-01.png", "bob-77.png"]⟩

/-- A valid body for `createPost` and `editPost`. -/
def sampleBody : PostBody := ⟨some "Second", some "art", some "<p>a new text</p>"⟩

/-- The environment `sampleEnv` handing out `id` as the next `_id`. -/
def envWithId (id : String) : Env := { sampleEnv with newId := id }

/-- The empty database. -/
def emptyState : State := ⟨[], [], []⟩

/-- The state after two registrations on the empty database. -/
def twoRegistered : State :=
  (registerUser (envWithId "u2")
    (registerUser (envWithId "u1") emptyState
      ⟨some "Alice", some "a@x.com", some "secret1", some "secret1"⟩).2
    ⟨some "Bob", some "b@x.com", some "secret2", some "secret2"⟩).2

/-- The environment `envWithId id` for emails that are typed in lower case:
`toLowerCase` returns its argument. -/
def lowerCaseEnv (id : String) : Env := { envWithId id with toLowerCase := fun v => v }

/-! ## Lemmas on the collections -/

theorem Post.findById_delete_self (posts : List Post) (id : String) :
    Post.findById (Post.findByIdAndDelete posts id) id = none := by
  simp [Post.findById, Post.findByIdAndDelete, List.find?_eq_none]

theorem Post.findById_delete_other (posts : List Post) (id id' : String) (h : id' ≠ id) :
    Post.findById (Post.findByIdAndDelete posts id) id' = Post.findById posts id' := by
  induction posts with
  | nil => rfl
  | cons p ps ih =>
    unfold Post.findById Post.findByIdAndDelete at ih ⊢
    by_cases hp : p.id = id
    · have h1 : (p.id != id) = false := by simp [hp]
      have h2 : (p.id == id') = false := by
        simp only [beq_eq_false_iff_ne, ne_eq]
        exact fun h' => h (h'.symm.trans hp)
      rw [List.filter_cons, h1, List.find?_cons, h2]
      exact ih
    · have h1 : (p.id != id) = true := by simp [hp]
      rw [List.filter_cons, h1]
      simp only [↓reduceIte]
      rw [List.find?_cons, List.find?_cons]
      cases hq : (p.id == id')
      · exact ih
      · rfl

theorem Post.findById_append_new (posts : List Post) (doc : Post)
    (h : Post.findById posts doc.id = none) :
    Post.findById (posts ++ [doc]) doc.id = some doc := by
  unfold Post.findById at h ⊢
  rw [List.find?_append, h]
  simp [List.find?_cons]

theorem User.findById_update_self (users : List User) (id : String) (update : User → User)
    (hid : ∀ u, (update u).id = u.id) :
    User.findById (User.findByIdAndUpdate users id update).2 id
      = (User.findById users id).map update := by
  induction users with
  | nil => rfl
  | cons u us ih =>
    unfold User.findById User.findByIdAndUpdate at ih ⊢
    simp only at ih ⊢
    rw [List.map_cons, List.find?_cons, List.find?_cons]
    cases hu : (u.id == id)
    · simp only [Bool.false_eq_true, if_false, hu]
      exact ih
    · have h1 : ((update u).id == id) = true := by rw [hid]; exact hu
      simp only [if_true, h1, Option.map_some']

theorem User.findById_update_other (users : List User) (id id' : String) (update : User → User)
    (hid : ∀ u, (update u).id = u.id) (h : id' ≠ id) :
    User.findById (User.findByIdAndUpdate users id update).2 id' = User.findById users id' := by
  induction users with
  | nil => rfl
  | cons u us ih =>
    unfold User.findById User.findByIdAndUpdate at ih ⊢
    simp only at ih ⊢
    rw [List.map_cons, List.find?_cons, List.find?_cons]
    cases hu : (u.id == id)
    · simp only [Bool.false_eq_true, if_false]
      cases hq : (u.id == id')
      · exact ih
      · rfl
    · have h2 : (u.id == id') = false := by
        simp only [beq_eq_false_iff_ne, ne_eq]
        exact fun h' => h (h'.symm.trans (by simpa using hu))
      have h1 : ((update u).id == id') = false := by rw [hid]; exact h2
      simp only [if_true, h1, h2]
      exact ih

/-! ## Ownership: a requester who is not the creator -/

/-- C1: for an existing post, a requester other than its creator and a body
that passes the guard of line 127, `editPost` replies with the 422 error
`Post could not be edited`, whatever `req.files` holds, while `deletePost`
replies with the 403 error: the two handlers do not answer a foreign requester
alike, and `editPost` never sends 403 here. -/
theorem editPost_non_owner_replies_422 (env : Env) (s : State) (userId postId : String)
    (post : Post) (body : PostBody) (files : Option Files)
    (hid : postId ≠ "")
    (hpost : Post.findById s.posts postId = some post)
    (hne : userId ≠ post.creator)
    (hbody : editGuard body = .ok false) :
    (editPost env s userId postId body files).1 = [.next ⟨"Post could not be edited", some 422⟩]
    ∧ (deletePost env s userId postId).1 = [.next ⟨"Post could not be deleted", some 403⟩] := by
  have hbeq : (userId == post.creator) = false := by simpa using hne
  have hid' : (postId == "") = false := by simpa using hid
  constructor
  · simp [editPost, hbody, hpost, hbeq]
  · simp [deletePost, hpost, hbeq, hid']

theorem editPost_non_owner_replies_422_witness :
    (editPost sampleEnv sampleState "u2" "p1" sampleBody none).1
        = [.next ⟨"Post could not be edited", some 422⟩]
    ∧ (deletePost sampleEnv sampleState "u2" "p1").1
        = [.next ⟨"Post could not be deleted", some 403⟩] :=
  editPost_non_owner_replies_422 sampleEnv sampleState "u2" "p1" alicePost sampleBody none
    (by decide) (by decide) (by decide) rfl

/-- C2: for an existing post and a requester other than its creator, `editPost`
(for every body and every `req.files`) and `deletePost` leave the whole state as
it was: the post document, the names in `uploads` and the counter of every
user. -/
theorem non_owner_leaves_state (env : Env) (s : State) (userId postId : String)
    (post : Post) (body : PostBody) (files : Option Files)
    (hpost : Post.findById s.posts postId = some post)
    (hne : userId ≠ post.creator) :
    (editPost env s userId postId body files).2 = s
    ∧ (deletePost env s userId postId).2 = s
    ∧ Post.findById (editPost env s userId postId body files).2.posts postId = some post
    ∧ Post.findById (deletePost env s userId postId).2.posts postId = some post
    ∧ (post.thumbnail ∈ s.uploads →
        post.thumbnail ∈ (editPost env s userId postId body files).2.uploads
        ∧ post.thumbnail ∈ (deletePost env s userId postId).2.uploads)
    ∧ (∀ u, postCount (editPost env s userId postId body files).2 u = postCount s u)
    ∧ (∀ u, postCount (deletePost env s userId postId).2 u = postCount s u) := by
  have hbeq : (userId == post.creator) = false := by simpa using hne
  have hedit : (editPost env s userId postId body files).2 = s := by
    unfold editPost
    cases hg : editGuard body with
    | error err => rfl
    | ok b =>
      cases b with
      | true => rfl
      | false => simp [hpost, hbeq]
  have hdel : (deletePost env s userId postId).2 = s := by
    unfold deletePost
    by_cases hid : (postId == "") = true
    · simp [hid]
    · simp [hid, hpost, hbeq]
  rw [hedit, hdel]
  exact ⟨rfl, rfl, hpost, hpost, fun h => ⟨h, h⟩, fun _ => rfl, fun _ => rfl⟩

theorem non_owner_leaves_state_witness :
    (editPost sampleEnv sampleState "u2" "p1" sampleBody
        (some ⟨some ⟨"new.png", 1000⟩, none⟩)).2 = sampleState
    ∧ (deletePost sampleEnv sampleState "u2" "p1").2 = sampleState :=
  have h := non_owner_leaves_state sampleEnv sampleState "u2" "p1" alicePost sampleBody
    (some ⟨some ⟨"new.png", 1000⟩, none⟩) (by decide) (by decide)
  ⟨h.1, h.2.1⟩

/-! ## deletePost by the creator -/

/-- C3: `deletePost` is fail-closed.  For an existing post and its creator as
requester, when `fs.unlink` on the thumbnail reports an error, the handler
replies with one error and the state is as it was: the post document is still
there and the counter of the creator is the same. -/
theorem deletePost_fail_closed (env : Env) (s : State) (userId postId : String)
    (post : Post) (err : String)
    (hpost : Post.findById s.posts postId = some post)
    (hown : userId = post.creator)
    (hfail : unlink env s.uploads post.thumbnail = .error err) :
    (∃ e, (deletePost env s userId postId).1 = [.next e])
    ∧ (deletePost env s userId postId).2 = s
    ∧ Post.findById (deletePost env s userId postId).2.posts postId = some post
    ∧ postCount (deletePost env s userId postId).2 userId = postCount s userId := by
  have hbeq : (userId == post.creator) = true := by simpa using hown
  have hstate : (deletePost env s userId postId).2 = s := by
    unfold deletePost
    by_cases hid : (postId == "") = true
    · simp [hid]
    · simp [hid, hpost, hbeq, hfail]
  refine ⟨?_, hstate, ?_, ?_⟩
  · unfold deletePost
    by_cases hid : (postId == "") = true
    · exact ⟨⟨"Post unavailable", some 404⟩, by simp [hid]⟩
    · exact ⟨⟨err, none⟩, by simp [hid, hpost, hbeq, hfail]⟩
  · rw [hstate]; exact hpost
  · rw [hstate]

theorem deletePost_fail_closed_witness :
    (∃ e, (deletePost unlinkFaultEnv sampleState "u1" "p1").1 = [.next e])
    ∧ (deletePost unlinkFaultEnv sampleState "u1" "p1").2 = sampleState
    ∧ Post.findById (deletePost unlinkFaultEnv sampleState "u1" "p1").2.posts "p1" = some alicePost
    ∧ postCount (deletePost unlinkFaultEnv sampleState "u1" "p1").2 "u1" = postCount sampleState "u1" :=
  deletePost_fail_closed unlinkFaultEnv sampleState "u1" "p1" alicePost eio
    (by decide) (by decide) rfl

/-- C4: for an existing post and its creator as requester, when `fs.unlink`
succeeds (no fault, the thumbnail is in `uploads`), `deletePost` replies
`Post deleted successfully` and leaves a state in which `getPost` on the id
replies 404, the thumbnail is not in `uploads`, the counter of the creator is
one less, and every other post and every other counter is as before. -/
theorem deletePost_by_creator (env : Env) (s : State) (userId postId : String) (post : Post)
    (hid : postId ≠ "")
    (hpost : Post.findById s.posts postId = some post)
    (hown : userId = post.creator)
    (hfault : env.unlinkFault = false)
    (hfile : post.thumbnail ∈ s.uploads) :
    (deletePost env s userId postId).1 = [.json 200 (.message "Post deleted successfully")]
    ∧ (getPost (deletePost env s userId postId).2 postId).1
        = [.next ⟨"Post not found", some 404⟩]
    ∧ post.thumbnail ∉ (deletePost env s userId postId).2.uploads
    ∧ postCount (deletePost env s userId postId).2 userId
        = (postCount s userId).map (fun n => n - 1)
    ∧ (∀ id, id ≠ postId →
        Post.findById (deletePost env s userId postId).2.posts id = Post.findById s.posts id)
    ∧ (∀ u, u ≠ userId → postCount (deletePost env s userId postId).2 u = postCount s u) := by
  have hbeq : (userId == post.creator) = true := by simpa using hown
  have hid' : (postId == "") = false := by simpa using hid
  have hunlink : unlink env s.uploads post.thumbnail
      = .ok (s.uploads.filter (fun f => f != post.thumbnail)) := by
    simp [unlink, hfault, hfile]
  have hrun : deletePost env s userId postId =
      ([.json 200 (.message "Post deleted successfully")],
        { users := (User.findByIdAndUpdate s.users userId
            (fun u => { u with posts :=
              match User.findById s.users userId with
              | some currentUser => currentUser.posts - 1
              | none => 0 })).2,
          posts := Post.findByIdAndDelete s.posts postId,
          uploads := s.uploads.filter (fun f => f != post.thumbnail) }) := by
    simp [deletePost, hid', hpost, hbeq, hunlink]
  rw [hrun]
  refine ⟨rfl, ?_, ?_, ?_, ?_, ?_⟩
  · simp [getPost, Post.findById_delete_self]
  · simp [List.mem_filter]
  · unfold postCount
    simp only
    rw [User.findById_update_self]
    · cases User.findById s.users userId <;> rfl
    · intro u; rfl
  · intro id hne
    exact Post.findById_delete_other s.posts postId id hne
  · intro u hne
    unfold postCount
    simp only
    rw [User.findById_update_other _ _ _ _ _ hne]
    intro v; rfl

theorem deletePost_by_creator_witness :
    (deletePost sampleEnv sampleState "u1" "p1").1
        = [.json 200 (.message "Post deleted successfully")]
    ∧ (getPost (deletePost sampleEnv sampleState "u1" "p1").2 "p1").1
        = [.next ⟨"Post not found", some 404⟩]
    ∧ alicePost.thumbnail ∉ (deletePost sampleEnv sampleState "u1" "p1").2.uploads
    ∧ postCount (deletePost sampleEnv sampleState "u1" "p1").2 "u1"
        = (postCount sampleState "u1").map (fun n => n - 1)
    ∧ (∀ id, id ≠ "p1" →
        Post.findById (deletePost sampleEnv sampleState "u1" "p1").2.posts id
          = Post.findById sampleState.posts id)
    ∧ (∀ u, u ≠ "u1" →
        postCount (deletePost sampleEnv sampleState "u1" "p1").2 u = postCount sampleState u) :=
  deletePost_by_creator sampleEnv sampleState "u1" "p1" alicePost
    (by decide) (by decide) (by decide) (by decide) (by decide)

/-! ## createPost -/

/-- C5: for an author with a user document, a non-empty title, category and
description and a thumbnail of at most 2,000,000 bytes, when `mv` and the insert
succeed and the database hands out an unused `_id`, `createPost` replies with
the new post, `getPost` on its id returns a post with the given title, category
and description, the author as creator and the stored file name as thumbnail,
that file is in `uploads`, and the counter of the author is one more. -/
theorem createPost_then_getPost (env : Env) (s : State) (userId title category description : String)
    (thumbnail : UploadedFile) (avatar : Option UploadedFile) (author : User)
    (htitle : title ≠ "") (hcategory : category ≠ "") (hdescription : description ≠ "")
    (hsize : thumbnail.size ≤ 2000000)
    (hmv : env.mvFault = false) (hinsert : env.insertFault = false)
    (hfresh : Post.findById s.posts env.newId = none)
    (hauthor : User.findById s.users userId = some author) :
    (createPost env s userId ⟨some title, some category, some description⟩
        (some ⟨some thumbnail, avatar⟩)).1
      = [.json 200 (.post ⟨env.newId, title, category, description,
            newFilename env thumbnail.name, userId⟩)]
    ∧ (getPost (createPost env s userId ⟨some title, some category, some description⟩
        (some ⟨some thumbnail, avatar⟩)).2 env.newId).1
      = [.json 200 (.post ⟨env.newId, title, category, description,
            newFilename env thumbnail.name, userId⟩)]
    ∧ newFilename env thumbnail.name
        ∈ (createPost env s userId ⟨some title, some category, some description⟩
            (some ⟨some thumbnail, avatar⟩)).2.uploads
    ∧ postCount (createPost env s userId ⟨some title, some category, some description⟩
        (some ⟨some thumbnail, avatar⟩)).2 userId = some (author.posts + 1) := by
  have hsize' : ¬ 2000000 < thumbnail.size := Nat.not_lt.mpr hsize
  have hrun : createPost env s userId ⟨some title, some category, some description⟩
        (some ⟨some thumbnail, avatar⟩) =
      ([.json 200 (.post ⟨env.newId, title, category, description,
            newFilename env thumbnail.name, userId⟩)],
        { users := (User.findByIdAndUpdate s.users userId
            (fun u => { u with posts := author.posts + 1 })).2,
          posts := s.posts ++ [⟨env.newId, title, category, description,
            newFilename env thumbnail.name, userId⟩],
          uploads := s.uploads.filter (fun f => f != newFilename env thumbnail.name)
            ++ [newFilename env thumbnail.name] }) := by
    simp [createPost, truthy, htitle, hcategory, hdescription, hsize', mv, hmv, Post.create,
      hinsert, hauthor]
  rw [hrun]
  refine ⟨rfl, ?_, ?_, ?_⟩
  · have h := Post.findById_append_new s.posts
      ⟨env.newId, title, category, description, newFilename env thumbnail.name, userId⟩ hfresh
    simp only at h
    simp only [getPost, h]
  · simp
  · unfold postCount
    simp only
    rw [User.findById_update_self, hauthor]
    · rfl
    · intro u; rfl

theorem createPost_then_getPost_witness :
    (createPost sampleEnv sampleState "u1" ⟨some "Second", some "art", some "<p>a new text</p>"⟩
        (some ⟨some ⟨"cat.photo.png", 2000000⟩, none⟩)).1
      = [.json 200 (.post ⟨"p2", "Second", "art", "<p>a new text</p>", "cat-3f2a.png", "u1"⟩)]
    ∧ postCount (createPost sampleEnv sampleState "u1"
        ⟨some "Second", some "art", some "<p>a new text</p>"⟩
        (some ⟨some ⟨"cat.photo.png", 2000000⟩, none⟩)).2 "u1" = some 2 :=
  have h := createPost_then_getPost sampleEnv sampleState "u1" "Second" "art" "<p>a new text</p>"
    ⟨"cat.photo.png", 2000000⟩ none alice (by decide) (by decide) (by decide) (by decide)
    rfl rfl (by decide) (by decide)
  ⟨h.1, h.2.2.2⟩

/-- C9: with title, category and description present and a thumbnail in
`req.files`, `createPost` replies with the 422 error `Thumbnail too big` exactly
when the size is above 2,000,000 bytes (2,000,000 passes, 2,000,001 does not),
and in that case it leaves the state as it was: nothing is stored in `uploads`,
no post is inserted and no counter moves. -/
theorem createPost_thumbnail_ceiling (env : Env) (s : State) (userId : String) (body : PostBody)
    (thumbnail : UploadedFile) (avatar : Option UploadedFile)
    (htitle : truthy body.title = true) (hcategory : truthy body.category = true)
    (hdescription : truthy body.description = true) :
    (thumbnail.size ≤ 2000000 ↔
        (createPost env s userId body (some ⟨some thumbnail, avatar⟩)).1 ≠ [.next thumbnailTooBig])
    ∧ (2000000 < thumbnail.size →
        createPost env s userId body (some ⟨some thumbnail, avatar⟩) = ([.next thumbnailTooBig], s))
    ∧ thumbnailTooBig.code = some 422 := by
  have hbig : 2000000 < thumbnail.size →
      createPost env s userId body (some ⟨some thumbnail, avatar⟩) = ([.next thumbnailTooBig], s) := by
    intro h
    simp [createPost, htitle, hcategory, hdescription, h]
  refine ⟨⟨?_, ?_⟩, hbig, rfl⟩
  · intro hle
    have hsize : ¬ 2000000 < thumbnail.size := Nat.not_lt.mpr hle
    unfold createPost
    simp only [htitle, hcategory, hdescription, Option.isNone_some, Bool.not_true, Bool.or_self,
      Bool.false_eq_true, if_false, Option.some_bind, gt_iff_lt]
    rw [if_neg hsize]
    split
    · simp
    · split
      · simp [thumbnailTooBig]
      · split <;> simp
  · intro hne
    by_contra hgt
    exact hne (by rw [hbig (Nat.lt_of_not_le hgt)])

theorem createPost_thumbnail_ceiling_witness :
    (createPost sampleEnv sampleState "u1" sampleBody
        (some ⟨some ⟨"cat.png", 2000000⟩, none⟩)).1 ≠ [.next thumbnailTooBig]
    ∧ createPost sampleEnv sampleState "u1" sampleBody (some ⟨some ⟨"cat.png", 2000001⟩, none⟩)
        = ([.next thumbnailTooBig], sampleState) :=
  ⟨(createPost_thumbnail_ceiling sampleEnv sampleState "u1" sampleBody ⟨"cat.png", 2000000⟩ none
      rfl rfl rfl).1.mp (by decide),
    (createPost_thumbnail_ceiling sampleEnv sampleState "u1" sampleBody ⟨"cat.png", 2000001⟩ none
      rfl rfl rfl).2.1 (by decide)⟩

/-! ## A post id that names no post -/

/-- C6: for a non-empty id that names no stored post, `editPost` (with a body
that passes the guard of line 127) and `deletePost` both reply with the wrapped
`TypeError` of the `catch`, an error without a status code, and not with 404. -/
theorem missing_post_replies_without_code (env : Env) (s : State) (userId postId : String)
    (body : PostBody) (files : Option Files)
    (hid : postId ≠ "")
    (hpost : Post.findById s.posts postId = none)
    (hbody : editGuard body = .ok false) :
    editPost env s userId postId body files = ([.next ⟨typeError, none⟩], s)
    ∧ deletePost env s userId postId = ([.next ⟨typeError, none⟩], s)
    ∧ (getPost s postId).1 = [.next ⟨"Post not found", some 404⟩] := by
  have hid' : (postId == "") = false := by simpa using hid
  refine ⟨?_, ?_, ?_⟩
  · simp [editPost, hbody, hpost]
  · simp [deletePost, hpost, hid']
  · simp [getPost, hpost]

theorem missing_post_replies_without_code_witness :
    editPost sampleEnv sampleState "u1" "p9" sampleBody none
        = ([.next ⟨typeError, none⟩], sampleState)
    ∧ deletePost sampleEnv sampleState "u1" "p9" = ([.next ⟨typeError, none⟩], sampleState)
    ∧ (getPost sampleState "p9").1 = [.next ⟨"Post not found", some 404⟩] :=
  missing_post_replies_without_code sampleEnv sampleState "u1" "p9" sampleBody none
    (by decide) (by decide) rfl

/-! ## userControllers.js -/

/-- C7: `loginUser` tells an unknown email from a wrong password.  For a
non-empty email and password, when no user has the email the reply is the 422
error `Login registration failed` of the `catch`, and when a user has it and
the password does not match the hash the reply is the 422 error
`Invalid credentials`: the status is the same, the message is not. -/
theorem loginUser_existence_oracle (env : Env) (s₁ s₂ : State) (email password : String)
    (user : User)
    (hemail : email ≠ "") (hpassword : password ≠ "")
    (hunknown : User.findOne s₁.users (env.toLowerCase email) = none)
    (hknown : User.findOne s₂.users (env.toLowerCase email) = some user)
    (hwrong : env.compare password user.password = false) :
    (loginUser env s₁ ⟨some email, some password⟩).1
        = [.next ⟨"Login registration failed", some 422⟩]
    ∧ (loginUser env s₂ ⟨some email, some password⟩).1
        = [.next ⟨"Invalid credentials", some 422⟩]
    ∧ (loginUser env s₁ ⟨some email, some password⟩).1
        ≠ (loginUser env s₂ ⟨some email, some password⟩).1 := by
  have h1 : (loginUser env s₁ ⟨some email, some password⟩).1
      = [.next ⟨"Login registration failed", some 422⟩] := by
    simp [loginUser, truthy, hemail, hpassword, hunknown]
  have h2 : (loginUser env s₂ ⟨some email, some password⟩).1
      = [.next ⟨"Invalid credentials", some 422⟩] := by
    simp [loginUser, truthy, hemail, hpassword, hknown, hwrong]
  refine ⟨h1, h2, ?_⟩
  rw [h1, h2]
  decide

theorem loginUser_existence_oracle_witness :
    (loginUser sampleEnv emptyState ⟨some "alice@example.com", some "wrong-pass"⟩).1
        = [.next ⟨"Login registration failed", some 422⟩]
    ∧ (loginUser sampleEnv sampleState ⟨some "alice@example.com", some "wrong-pass"⟩).1
        = [.next ⟨"Invalid credentials", some 422⟩] :=
  have h := loginUser_existence_oracle sampleEnv emptyState sampleState "alice@example.com"
    "wrong-pass" alice (by decide) (by decide) (by decide) (by decide) (by decide)
  ⟨h.1, h.2.1⟩

/-- C8: the success replies of `changeAvatar` and of `editUser` hold the stored
password hash.  Every JSON reply of `changeAvatar` carries a user document with
the `password` field, and so does every JSON reply of `editUser`; the replies of
`getUser` and `getAuthors` carry none. -/
theorem user_replies_expose_password (env : Env) (s : State) (userId : String)
    (files : Option Files) (body : EditUserBody) :
    (∀ r ∈ (changeAvatar env s userId files).1, ∀ status b,
        r = .json status b → r.exposesPassword = true)
    ∧ (∀ r ∈ (editUser env s userId body).1, ∀ status b,
        r = .json status b → r.exposesPassword = true)
    ∧ (∀ r ∈ (getUser s userId).1, r.exposesPassword = false)
    ∧ (∀ r ∈ (getAuthors s).1, r.exposesPassword = false) := by
  refine ⟨?_, ?_, ?_, ?_⟩
  · intro r hr status b hjson
    subst hjson
    unfold changeAvatar at hr
    rcases files with _ | fs
    · simp at hr
    · rcases hav : fs.avatar with _ | avatar
      · simp [hav] at hr
      · rcases hu : User.findById s.users userId with _ | user
        · simp [hav, hu] at hr
        · simp only [hav, hu, User.findByIdAndUpdate, Option.map_some'] at hr
          repeat' split at hr
          all_goals simp at hr
          all_goals
            obtain ⟨rfl, rfl⟩ := hr
            simp [Reply.exposesPassword, Body.exposesPassword, User.toDoc]
  · intro r hr status b hjson
    subst hjson
    unfold editUser at hr
    split at hr
    · simp at hr
    · rcases hu : User.findById s.users userId with _ | user
      · simp [hu] at hr
      · simp only [hu, User.findByIdAndUpdate, Option.map_some'] at hr
        repeat' split at hr
        all_goals simp at hr
        all_goals
          obtain ⟨rfl, rfl⟩ := hr
          simp [Reply.exposesPassword, Body.exposesPassword, User.toDoc]
  · intro r hr
    unfold getUser at hr
    split at hr <;> simp at hr <;> subst hr
    · rfl
    · rename_i user heq
      rcases hu : User.findById s.users userId with _ | u
      · simp [hu] at heq
      · simp [hu] at heq
        subst heq
        rfl
  · intro r hr
    simp [getAuthors] at hr
    subst hr
    simp [Reply.exposesPassword, Body.exposesPassword, User.selectNoPassword]

theorem user_replies_expose_password_witness :
    (changeAvatar sampleEnv sampleState "u1" (some ⟨none, some ⟨"me.png", 500000⟩⟩)).1
        = [.json 200 (.user ⟨"u1", "Alice", "alice@example.com", some "hash:secret1",
            some "me-3f2a.png", 1⟩)]
    ∧ (editUser sampleEnv sampleState "u1"
        ⟨some "Alice", some "alice@example.com", some "secret1", some "secret9", some "secret9"⟩).1
        = [.json 200 (.user ⟨"u1", "Alice", "alice@example.com", some "hash:secret9", none, 1⟩)]
    ∧ Reply.exposesPassword (.json 200 (.user ⟨"u1", "Alice", "alice@example.com",
        some "hash:secret1", some "me-3f2a.png", 1⟩)) = true :=
  ⟨by decide, by decide,
    (user_replies_expose_password sampleEnv sampleState "u1"
      (some ⟨none, some ⟨"me.png", 500000⟩⟩)
      ⟨some "Alice", some "alice@example.com", some "secret1", some "secret9", some "secret9"⟩).1
      _ (by decide) 200 _ rfl⟩

/-- C10: `editUser` breaks the uniqueness of emails up to letter case.  Starting
from the empty database, after `registerUser` for `a@x.com` and for `b@x.com`
and an `editUser` of the second user to the email `A@x.com`, the reply is 200
and two users hold emails that agree in lower case; `registerUser` with
`A@X.COM` on the same state is rejected with 422. -/
theorem editUser_breaks_email_uniqueness :
    twoRegistered.users
        = [⟨"u1", "Alice", "a@x.com", "hash:secret1", none, 0⟩,
           ⟨"u2", "Bob", "b@x.com", "hash:secret2", none, 0⟩]
    ∧ emailsUnique sampleEnv.toLowerCase twoRegistered.users
    ∧ (registerUser (envWithId "u3") twoRegistered
        ⟨some "Carol", some "A@X.COM", some "secret3", some "secret3"⟩).1
        = [.next ⟨"Email already exits", some 422⟩]
    ∧ (editUser sampleEnv twoRegistered "u2"
        ⟨some "Bob", some "A@x.com", some "secret2", some "secret3", some "secret3"⟩).1
        = [.json 200 (.user ⟨"u2", "Bob", "A@x.com", some "hash:secret3", none, 0⟩)]
    ∧ (editUser sampleEnv twoRegistered "u2"
        ⟨some "Bob", some "A@x.com", some "secret2", some "secret3", some "secret3"⟩).2.users
        = [⟨"u1", "Alice", "a@x.com", "hash:secret1", none, 0⟩,
           ⟨"u2", "Bob", "A@x.com", "hash:secret3", none, 0⟩]
    ∧ ¬ emailsUnique sampleEnv.toLowerCase
        (editUser sampleEnv twoRegistered "u2"
          ⟨some "Bob", some "A@x.com", some "secret2", some "secret3", some "secret3"⟩).2.users := by
  refine ⟨by decide, by decide, by decide, by decide, by decide, by decide⟩

/-! ## Further properties of the user controllers -/

/-- The handler `registerUser` keeps emails unique up to letter case: when
`toLowerCase` is idempotent, every stored email is in lower case and no two
users with different ids share an email up to case, the same holds after
`registerUser`, for every body. -/
theorem registerUser_keeps_emails_unique (env : Env) (s : State) (body : RegisterBody)
    (hidem : ∀ v, env.toLowerCase (env.toLowerCase v) = env.toLowerCase v)
    (hlow : emailsLowered env.toLowerCase s.users)
    (huniq : emailsUnique env.toLowerCase s.users) :
    emailsLowered env.toLowerCase (registerUser env s body).2.users
    ∧ emailsUnique env.toLowerCase (registerUser env s body).2.users := by
  unfold registerUser
  split
  · exact ⟨hlow, huniq⟩
  · simp only
    cases hfind : User.findOne s.users (env.toLowerCase (body.email.getD "")) with
    | some other => exact ⟨hlow, huniq⟩
    | none =>
      simp only
      split
      · exact ⟨hlow, huniq⟩
      · split
        · exact ⟨hlow, huniq⟩
        · unfold User.create
          by_cases hins : env.insertFault = true
          · simp only [hins, if_true]
            exact ⟨hlow, huniq⟩
          · simp only [hins, Bool.false_eq_true, if_false]
            have hnew : ∀ u ∈ s.users, u.email ≠ env.toLowerCase (body.email.getD "") := by
              intro u hu heq
              have := List.find?_eq_none.mp hfind u hu
              simp [heq] at this
            constructor
            · intro u hu
              rcases List.mem_append.mp hu with h | h
              · exact hlow u h
              · rw [List.mem_singleton.mp h]
                exact hidem _
            · intro u hu v hv hne
              rcases List.mem_append.mp hu with h | h <;> rcases List.mem_append.mp hv with h' | h'
              · exact huniq u h v h' hne
              · rw [List.mem_singleton.mp h', hlow u h]
                simp only [hidem]
                exact hnew u h
              · rw [List.mem_singleton.mp h, hlow v h']
                simp only [hidem]
                exact fun heq => hnew v h' heq.symm
              · exact absurd ((List.mem_singleton.mp h).trans (List.mem_singleton.mp h').symm ▸ rfl) hne

theorem registerUser_keeps_emails_unique_witness :
    emailsLowered (lowerCaseEnv "u2").toLowerCase
      (registerUser (lowerCaseEnv "u2") ⟨[⟨"u1", "Alice", "a@x.com", "hash:secret1", none, 0⟩], [], []⟩
        ⟨some "Bob", some "b@x.com", some "secret2", some "secret2"⟩).2.users
    ∧ emailsUnique (lowerCaseEnv "u2").toLowerCase
      (registerUser (lowerCaseEnv "u2") ⟨[⟨"u1", "Alice", "a@x.com", "hash:secret1", none, 0⟩], [], []⟩
        ⟨some "Bob", some "b@x.com", some "secret2", some "secret2"⟩).2.users :=
  registerUser_keeps_emails_unique (lowerCaseEnv "u2")
    ⟨[⟨"u1", "Alice", "a@x.com", "hash:secret1", none, 0⟩], [], []⟩
    ⟨some "Bob", some "b@x.com", some "secret2", some "secret2"⟩
    (fun _ => rfl) (by intro u hu; rfl) (by decide)

/-- The handler `changeAvatar` with an avatar above 500,000 bytes leaves every
user document as it was and sends no JSON reply; for a requester with a user
document its last reply is the 422 error of the size check. -/
theorem changeAvatar_too_big (env : Env) (s : State) (userId : String)
    (thumbnail : Option UploadedFile) (avatar : UploadedFile)
    (hsize : 500000 < avatar.size) :
    (changeAvatar env s userId (some ⟨thumbnail, some avatar⟩)).2.users = s.users
    ∧ (∀ status b, Reply.json status b ∉ (changeAvatar env s userId (some ⟨thumbnail, some avatar⟩)).1)
    ∧ ((User.findById s.users userId).isSome →
        (changeAvatar env s userId (some ⟨thumbnail, some avatar⟩)).1.getLast?
          = some (.next ⟨"Profile picture too big. Should be less than 500kb", some 422⟩)) := by
  unfold changeAvatar
  rcases hu : User.findById s.users userId with _ | user
  · simp
  · simp only [hsize, gt_iff_lt, if_true]
    refine ⟨?_, ?_, ?_⟩
    · trivial
    · intro status b
      repeat' split
      all_goals simp
    · intro _
      simp

theorem changeAvatar_too_big_witness :
    (changeAvatar sampleEnv sampleState "u2" (some ⟨none, some ⟨"me.png", 500001⟩⟩)).2.users
      = sampleState.users :=
  (changeAvatar_too_big sampleEnv sampleState "u2" none ⟨"me.png", 500001⟩ (by decide)).1

end BlogBack
